import Mathlib

/-!
Shallow embedding of the YOLO_CROWD_DETECTION pipeline
(detection_module.py, roi_module.py, detection_utils.py, redis_utils.py,
detects.py) and proofs about its specified behaviour.

Conventions: machine pixel coordinates and timestamps are modelled as `Int`
(the Python code works with plain ints and wall-clock floats; only order and
difference of timestamps matter to the properties below).  OpenCV calls whose
pixel-raster output is irrelevant to a claim (drawing, blending, `fillPoly`
rasterisation) are abstracted to the data the caller actually consumes.
-/

namespace YoloCrowd

/-! ## Alert gating in the detection loop (`detection_module.py`, `detect`)

Per processed frame the loop computes `total_detections`,
`total_max_threshold = sum(roi_max_thresholds)`, takes `current_time` and
fires an alert iff

    total_detections > 0 and total_max_threshold > 0 and
    total_detections >= total_max_threshold and
    current_time - last_global_alert_time > ALERT_COOLDOWN_SECONDS

in which case `last_global_alert_time` is set to `current_time`.
`last_global_alert_time` starts at 0; `ALERT_COOLDOWN_SECONDS = 120`. -/

/-- One frame's observation at the moment of the alert check: the wall-clock
time `t` (`current_time`), the aggregated `total_detections` and the sum of
all ROI thresholds (`total_max_threshold`). -/
structure FrameObs where
  t : Int
  total : Nat
  thrSum : Nat
  deriving Repr, DecidableEq

def ALERT_COOLDOWN_SECONDS : Int := 120

/-- The alert condition of `detect` (detection_module.py lines 321-323),
given the current `last_global_alert_time`. -/
def alertFires (last : Int) (f : FrameObs) : Bool :=
  decide (0 < f.total) && decide (0 < f.thrSum) && decide (f.thrSum ≤ f.total)
    && decide (ALERT_COOLDOWN_SECONDS < f.t - last)

/-- Timestamps of the alerts fired while folding the alert check over a run
of frames, threading `last_global_alert_time` exactly as the loop does
(line 325 assigns `last_global_alert_time = current_time` on fire). -/
def alertTimes (last : Int) : List FrameObs → List Int
  | [] => []
  | f :: fs => if alertFires last f then f.t :: alertTimes f.t fs else alertTimes last fs

/-- Fired-alert timestamps of a whole run: `last_global_alert_time` is
initialised to 0 (line 260). -/
def firedAlertTimes (fs : List FrameObs) : List Int := alertTimes 0 fs

/-- Unfolding of the boolean alert gate into its four conjuncts. -/
theorem alertFires_iff (last : Int) (f : FrameObs) :
    alertFires last f = true ↔
      0 < f.total ∧ 0 < f.thrSum ∧ f.thrSum ≤ f.total ∧
        ALERT_COOLDOWN_SECONDS < f.t - last := by
  simp [alertFires, Bool.and_eq_true, and_assoc]

/-- Every fired time exceeds the threaded `last` by more than the cooldown. -/
theorem alertTimes_lower (fs : List FrameObs) :
    ∀ last t, t ∈ alertTimes last fs → last + ALERT_COOLDOWN_SECONDS < t := by
  have hc : ALERT_COOLDOWN_SECONDS = 120 := rfl
  induction fs with
  | nil => intro last t h; simp [alertTimes] at h
  | cons f fs ih =>
    intro last t h
    by_cases hf : alertFires last f
    · obtain ⟨-, -, -, hgap⟩ := (alertFires_iff last f).mp hf
      simp only [alertTimes, hf, if_true, List.mem_cons] at h
      rcases h with rfl | h
      · omega
      · have h1 := ih f.t t h
        omega
    · simp only [alertTimes, hf, if_false] at h
      exact ih last t h

/-- Fired times are pairwise separated by more than the cooldown. -/
theorem alertTimes_pairwise (fs : List FrameObs) :
    ∀ last, (alertTimes last fs).Pairwise
      (fun a b => ALERT_COOLDOWN_SECONDS < b - a) := by
  induction fs with
  | nil => intro last; simp [alertTimes]
  | cons f fs ih =>
    intro last
    by_cases hf : alertFires last f
    · simp only [alertTimes, hf, if_true]
      refine List.Pairwise.cons ?_ (ih f.t)
      intro b hb
      have := alertTimes_lower fs f.t b hb
      omega
    · simp only [alertTimes, hf, if_false]; exact ih last

/-- Every fired time belongs to a frame of the run that satisfied the
count/threshold part of the gate. -/
theorem alertTimes_sound (fs : List FrameObs) :
    ∀ last t, t ∈ alertTimes last fs →
      ∃ f ∈ fs, f.t = t ∧ 0 < f.total ∧ 0 < f.thrSum ∧ f.thrSum ≤ f.total := by
  induction fs with
  | nil => intro last t h; simp [alertTimes] at h
  | cons f fs ih =>
    intro last t h
    by_cases hf : alertFires last f
    · obtain ⟨h1, h2, h3, -⟩ := (alertFires_iff last f).mp hf
      simp only [alertTimes, hf, if_true, List.mem_cons] at h
      rcases h with rfl | h
      · exact ⟨f, List.mem_cons_self _ _, rfl, h1, h2, h3⟩
      · obtain ⟨g, hg, rest⟩ := ih f.t t h
        exact ⟨g, List.mem_cons_of_mem _ hg, rest⟩
    · simp only [alertTimes, hf, if_false] at h
      obtain ⟨g, hg, rest⟩ := ih last t h
      exact ⟨g, List.mem_cons_of_mem _ hg, rest⟩

/-- C1: an alert fires on a frame only when `total_detections > 0`, the sum of
the ROI thresholds is `> 0`, the total reaches that sum, and more than 120
seconds have elapsed since the last fired alert; consequently any two fired
alerts of a run are separated by more than the 120-second cooldown. -/
theorem alert_cooldown_invariant (fs : List FrameObs) :
    (∀ t ∈ firedAlertTimes fs,
        ∃ f ∈ fs, f.t = t ∧ 0 < f.total ∧ 0 < f.thrSum ∧ f.thrSum ≤ f.total) ∧
    (firedAlertTimes fs).Pairwise
      (fun a b => ALERT_COOLDOWN_SECONDS < b - a) :=
  ⟨fun t ht => alertTimes_sound fs 0 t ht, alertTimes_pairwise fs 0⟩

/-! ## `FFmpegStreamer` (`detection_module.py`)

The streamer's observable state is the pair written under `self.lock`:
`is_reconnecting` and `latest_frame`.  `__init__` sets
`is_reconnecting = False` and `latest_frame = None`.  The reader thread
performs three kinds of writes: on (re)launch of the ffmpeg process it sets
`is_reconnecting = True` (lines 166-167); on decoding a full frame it sets
`is_reconnecting = False` and stores the frame (lines 187-191); after the
process ends it sets `is_reconnecting = True` again (lines 202-203).

Frames are abstracted to `Nat` payloads; `.copy()` is value semantics here.
The drawing done by `_create_reconnecting_overlay` is abstracted to which
base canvas it draws on: the last good frame when one exists, otherwise a
fresh black frame (lines 117-118) — either way a non-null frame. -/

/-- A frame payload (raster contents abstracted). -/
abbrev Frame := Nat

/-- The black canvas `np.zeros((h, w, 3))` used when no frame exists yet. -/
def blankFrame : Frame := 0

/-- Model of `_create_reconnecting_overlay`: draws the animation over the given frame,
or over a fresh black frame when the input is `none`; always yields a frame. -/
def createReconnectingOverlay (f : Option Frame) : Frame :=
  match f with
  | none => blankFrame
  | some g => g

/-- The lock-protected streamer state: `is_reconnecting` and `latest_frame`. -/
structure StreamerState where
  isReconnecting : Bool
  latestFrame : Option Frame
  deriving Repr, DecidableEq

/-- Initial state per `FFmpegStreamer.__init__`: `is_reconnecting = False`,
`latest_frame = None`. -/
def streamerInit : StreamerState := ⟨false, none⟩

/-- The reader thread's writes to the shared state. -/
inductive StreamEvent where
  /-- Launch or relaunch of the ffmpeg process: `is_reconnecting = True`. -/
  | launch
  /-- a full frame decoded: store it and clear `is_reconnecting`. -/
  | frameDecoded (f : Frame)
  /-- ffmpeg process ended: `is_reconnecting = True` before the backoff. -/
  | procEnded
  deriving Repr, DecidableEq

/-- One reader-thread write applied to the shared state. -/
def streamerStep (s : StreamerState) : StreamEvent → StreamerState
  | .launch => { s with isReconnecting := true }
  | .frameDecoded f => { isReconnecting := false, latestFrame := some f }
  | .procEnded => { s with isReconnecting := true }

/-- The state after a sequence of reader-thread writes. -/
def streamerRun (s : StreamerState) : List StreamEvent → StreamerState
  | [] => s
  | e :: es => streamerRun (streamerStep s e) es

/-- Model of `FFmpegStreamer.read` (lines 222-236): under the lock it snapshots the
reconnecting flag and a copy of the latest frame; when reconnecting it
returns `(False, overlay)`, otherwise `(True, latest_frame_copy)` — which is
`None` when no frame was ever decoded. -/
def FFmpegStreamer.read (s : StreamerState) : Bool × Option Frame :=
  if s.isReconnecting then
    (false, some (createReconnectingOverlay s.latestFrame))
  else
    (true, s.latestFrame)

/-- C2 counterexample: in the streamer's initial state — reachable, since
`read` may run before the reader thread's first write — `read` returns
`(True, None)`: a null frame with `isLive = true`.  (The detection loop
indeed guards this with `if im0 is None` at line 270.) -/
theorem read_initial_returns_none :
    FFmpegStreamer.read (streamerRun streamerInit []) = (true, none) := rfl

/-- Every reader-thread write establishes "reconnecting or a frame exists". -/
theorem streamer_inv_step (s : StreamerState) (e : StreamEvent) :
    (streamerStep s e).isReconnecting = true ∨
      (streamerStep s e).latestFrame.isSome = true := by
  cases e <;> simp [streamerStep]

/-- After any write sequence the invariant
"reconnecting or a frame exists" holds, once established. -/
theorem streamerRun_inv (es : List StreamEvent) (s : StreamerState)
    (h : s.isReconnecting = true ∨ s.latestFrame.isSome = true) :
    (streamerRun s es).isReconnecting = true ∨
      (streamerRun s es).latestFrame.isSome = true := by
  induction es generalizing s with
  | nil => exact h
  | cons e es ih => exact ih (streamerStep s e) (streamer_inv_step s e)

/-- C2 amended: after at least one reader-thread write (every launch marks
reconnecting before anything else), `read` never returns a null frame: when
reconnecting it returns the synthesized placeholder (last good frame or
blank canvas), otherwise a copy of the decoded frame.  Only in the pristine
initial state, before the reader thread has performed any write, does `read`
return `(True, None)` — which the detection loop guards explicitly. -/
theorem read_never_none_after_first_event (es : List StreamEvent)
    (hne : es ≠ []) :
    (FFmpegStreamer.read (streamerRun streamerInit es)).2.isSome = true := by
  cases es with
  | nil => exact absurd rfl hne
  | cons e es =>
    have h := streamerRun_inv es (streamerStep streamerInit e)
      (streamer_inv_step streamerInit e)
    show (FFmpegStreamer.read (streamerRun (streamerStep streamerInit e) es)).2.isSome
      = true
    rcases h with h | h
    · simp [FFmpegStreamer.read, h]
    · cases hr : (streamerRun (streamerStep streamerInit e) es).isReconnecting
      · simp [FFmpegStreamer.read, hr, h]
      · simp [FFmpegStreamer.read, hr]

/-- Witness for the amended C2 at a concrete write sequence. -/
theorem read_never_none_after_first_event_witness :
    [StreamEvent.launch] ≠ ([] : List StreamEvent) ∧
      (FFmpegStreamer.read (streamerRun streamerInit [StreamEvent.launch])).2.isSome
        = true :=
  ⟨by decide, read_never_none_after_first_event [StreamEvent.launch] (by decide)⟩

/-! ## `extract_roi_region` (`detection_utils.py`, lines 71-90)

The function rejects polygons with `< 3` points, computes
`cv2.boundingRect` of the integer points (x = min of xs, y = min of ys,
w = max-min+1, h likewise), clamps `x, y` to `max(0, ·)`, then sets
`w = min(w, img_w - x)` and `h = min(h, img_h - y)`; when `w <= 0 or h <= 0`
it returns `(None, None)`, otherwise the crop `roi_region[y:y+h, x:x+w]` of
the polygon-masked image together with the offset `(x, y)`.

The masked raster itself (`cv2.fillPoly` + `bitwise_and`) is external
rasterisation; the embedding keeps the function's control data: the crop
rectangle — its offset `(x, y)` and size `(w, h)` — or `none`. -/

/-- An axis-aligned rectangle as `cv2.boundingRect` returns it. -/
structure Rect where
  x : Int
  y : Int
  w : Int
  h : Int
  deriving Repr, DecidableEq

/-- Model of `cv2.boundingRect` on a nonempty list of integer points: top-left corner
is the componentwise minimum, width/height are max − min + 1.  (The `[]`
case is never reached: `extract_roi_region` rejects `len < 3` first.) -/
def boundingRect : List (Int × Int) → Rect
  | [] => ⟨0, 0, 0, 0⟩
  | p :: ps =>
    let minx := ps.foldl (fun a q => min a q.1) p.1
    let maxx := ps.foldl (fun a q => max a q.1) p.1
    let miny := ps.foldl (fun a q => min a q.2) p.2
    let maxy := ps.foldl (fun a q => max a q.2) p.2
    ⟨minx, miny, maxx - minx + 1, maxy - miny + 1⟩

/-- Model of `extract_roi_region(image, polygon)` with an `img_h × img_w` image:
`none` models the `(None, None)` returns; `some ((x, y), (w, h))` models the
crop `roi_region[y:y+h, x:x+w]` plus offset `(x, y)`. -/
def extract_roi_region (imgW imgH : Int) (poly : List (Int × Int)) :
    Option ((Int × Int) × (Int × Int)) :=
  if poly.length < 3 then none
  else
    let r := boundingRect poly
    let x := max 0 r.x
    let y := max 0 r.y
    let w := min r.w (imgW - x)
    let h := min r.h (imgH - y)
    if w ≤ 0 ∨ h ≤ 0 then none
    else some ((x, y), (w, h))

/-- The width the code actually crops: `min(w, img_w - max(0, x))`. -/
def clampedCropW (imgW : Int) (r : Rect) : Int := min r.w (imgW - max 0 r.x)

/-- The height the code actually crops: `min(h, img_h - max(0, y))`. -/
def clampedCropH (imgH : Int) (r : Rect) : Int := min r.h (imgH - max 0 r.y)

/-- Modelled from the spec's words only (for comparison with the code): the
width of "the polygon's axis-aligned bounding box clamped to frame bounds",
i.e. `min(x + w, img_w) - max(0, x)`. -/
def spec_clamped_width (imgW : Int) (r : Rect) : Int :=
  min (r.x + r.w) imgW - max 0 r.x

/-- C3 counterexample: on a 100×100 frame, the triangle
`[(-10,-10), (-5,-10), (-5,-5)]` lies fully outside the frame bounds and its
bounding box clamped to frame bounds has non-positive width, yet
`extract_roi_region` returns a crop `some ((0, 0), (6, 6))` — not none —
because the code clamps `x` to 0 *before* forming `img_w - x`, so the
off-frame width is never subtracted for polygons beyond the left/top edge. -/
theorem extract_roi_region_outside_counterexample :
    (∀ p ∈ [((-10 : Int), (-10 : Int)), (-5, -10), (-5, -5)],
        ¬ (0 ≤ p.1 ∧ p.1 < 100 ∧ 0 ≤ p.2 ∧ p.2 < 100)) ∧
    spec_clamped_width 100
        (boundingRect [((-10 : Int), (-10 : Int)), (-5, -10), (-5, -5)]) ≤ 0 ∧
    extract_roi_region 100 100 [((-10 : Int), (-10 : Int)), (-5, -10), (-5, -5)]
      = some ((0, 0), (6, 6)) := by
  refine ⟨?_, by decide, by decide⟩
  decide

/-- Folding `min` over first components stays above a common lower bound. -/
theorem foldl_min_fst_le (c : Int) (ps : List (Int × Int)) :
    ∀ a, c ≤ a → (∀ p ∈ ps, c ≤ p.1) →
      c ≤ ps.foldl (fun a q => min a q.1) a := by
  induction ps with
  | nil => intro a ha _; exact ha
  | cons p ps ih =>
    intro a ha hall
    refine ih (min a p.1) (le_min ha (hall p (List.mem_cons_self _ _))) ?_
    exact fun q hq => hall q (List.mem_cons_of_mem _ hq)

/-- Folding `min` over second components stays above a common lower bound. -/
theorem foldl_min_snd_le (c : Int) (ps : List (Int × Int)) :
    ∀ a, c ≤ a → (∀ p ∈ ps, c ≤ p.2) →
      c ≤ ps.foldl (fun a q => min a q.2) a := by
  induction ps with
  | nil => intro a ha _; exact ha
  | cons p ps ih =>
    intro a ha hall
    refine ih (min a p.2) (le_min ha (hall p (List.mem_cons_self _ _))) ?_
    exact fun q hq => hall q (List.mem_cons_of_mem _ hq)

/-- A common lower bound on the xs bounds the bounding box's `x`. -/
theorem boundingRect_x_ge (c : Int) (p : Int × Int) (ps : List (Int × Int))
    (hall : ∀ q ∈ p :: ps, c ≤ q.1) :
    c ≤ (boundingRect (p :: ps)).x := by
  simp only [boundingRect]
  exact foldl_min_fst_le c ps p.1 (hall p (List.mem_cons_self _ _))
    (fun q hq => hall q (List.mem_cons_of_mem _ hq))

/-- A common lower bound on the ys bounds the bounding box's `y`. -/
theorem boundingRect_y_ge (c : Int) (p : Int × Int) (ps : List (Int × Int))
    (hall : ∀ q ∈ p :: ps, c ≤ q.2) :
    c ≤ (boundingRect (p :: ps)).y := by
  simp only [boundingRect]
  exact foldl_min_snd_le c ps p.2 (hall p (List.mem_cons_self _ _))
    (fun q hq => hall q (List.mem_cons_of_mem _ hq))

/-- C3 amended: `extract_roi_region` returns none exactly when the polygon
has fewer than 3 points or the code's clamped crop size
(`min(w, img_w - max(0, x))` by `min(h, img_h - max(0, y))`) is
non-positive, and otherwise returns the crop at offset
`(max(0, x), max(0, y))` with that size; in particular a polygon fully
beyond the right or bottom frame edge yields none, but a polygon fully
beyond the left or top edge can still yield a crop (see the
counterexample). -/
theorem extract_roi_region_characterization (imgW imgH : Int)
    (poly : List (Int × Int)) (hW : 0 ≤ imgW) (hH : 0 ≤ imgH) :
    (extract_roi_region imgW imgH poly =
      if poly.length < 3 ∨ clampedCropW imgW (boundingRect poly) ≤ 0 ∨
          clampedCropH imgH (boundingRect poly) ≤ 0 then none
      else some ((max 0 (boundingRect poly).x, max 0 (boundingRect poly).y),
        (clampedCropW imgW (boundingRect poly),
          clampedCropH imgH (boundingRect poly)))) ∧
    ((∀ p ∈ poly, imgW ≤ p.1) ∨ (∀ p ∈ poly, imgH ≤ p.2) →
      extract_roi_region imgW imgH poly = none) := by
  have heq : extract_roi_region imgW imgH poly =
      if poly.length < 3 ∨ clampedCropW imgW (boundingRect poly) ≤ 0 ∨
          clampedCropH imgH (boundingRect poly) ≤ 0 then none
      else some ((max 0 (boundingRect poly).x, max 0 (boundingRect poly).y),
        (clampedCropW imgW (boundingRect poly),
          clampedCropH imgH (boundingRect poly))) := by
    simp only [extract_roi_region, clampedCropW, clampedCropH]
    split_ifs <;> first | rfl | (exfalso; omega)
  refine ⟨heq, fun hout => ?_⟩
  rw [heq]
  cases poly with
  | nil => exact if_pos (Or.inl (by decide))
  | cons p ps =>
    have hb : imgW ≤ (boundingRect (p :: ps)).x ∨
        imgH ≤ (boundingRect (p :: ps)).y := by
      rcases hout with hx | hy
      · exact Or.inl (boundingRect_x_ge imgW p ps hx)
      · exact Or.inr (boundingRect_y_ge imgH p ps hy)
    refine if_pos (Or.inr ?_)
    unfold clampedCropW clampedCropH
    rcases hb with hb | hb
    · exact Or.inl (le_trans (min_le_right _ _) (by omega))
    · exact Or.inr (le_trans (min_le_right _ _) (by omega))

/-- Witness for the amended C3: a triangle fully beyond the right edge of a
100×100 frame is rejected, and the characterization evaluates as stated. -/
theorem extract_roi_region_characterization_witness :
    (0 : Int) ≤ 100 ∧
    ((∀ p ∈ [((120 : Int), (10 : Int)), (130, 10), (125, 20)], (100 : Int) ≤ p.1) ∨
        (∀ p ∈ [((120 : Int), (10 : Int)), (130, 10), (125, 20)], (100 : Int) ≤ p.2)) ∧
    extract_roi_region 100 100 [((120 : Int), (10 : Int)), (130, 10), (125, 20)]
      = none :=
  ⟨by decide, Or.inl (by decide),
    (extract_roi_region_characterization 100 100
      [((120 : Int), (10 : Int)), (130, 10), (125, 20)] (by decide) (by decide)).2
      (Or.inl (by decide))⟩

/-! ## `PolygonROIManager` (`roi_module.py`) and its driver (`detects.py`)

State components are the instance attributes manipulated by
`mouse_callback`, `handle_key_input`, `cancel_input`, `save_config`,
`load_config` and the key dispatch of `detects.py`'s `frame_handler`.
Python's `-1` sentinels for `selected_polygon` / `drag_point_index` are kept
as `Int`.  Thresholds are Python ints, modelled as `Int` (a persisted config
may hold arbitrary integers).  The persisted JSON file is modelled by its
decoded content: `none` for a missing/corrupt file (`FileNotFoundError` or
any other exception leaves the registry untouched), `some (ps, ts)` for the
two decoded lists — JSON round-trips integer lists exactly, with Python
tuples written back as coordinate lists, so point identity is the pair of
coordinates. -/

/-- A polygon: an ordered list of integer points. -/
abbrev Poly := List (Int × Int)

/-- The mutable attributes of `PolygonROIManager` (logo fields omitted:
they never interact with polygons, thresholds or input state). -/
structure PolygonROIManager where
  polygons : List Poly
  roi_max_thresholds : List Int
  current_polygon : Poly
  edit_mode : Bool
  drawing : Bool
  selected_polygon : Int
  drag_point_index : Int
  mouse_pos : Int × Int
  input_mode : Bool
  input_buffer : List Char
  input_prompt : String
  pending_polygon : Option Poly
  deriving Repr, DecidableEq

/-- Constructor state of `PolygonROIManager.__init__`. -/
def initManager : PolygonROIManager :=
  { polygons := [], roi_max_thresholds := [], current_polygon := []
    edit_mode := false, drawing := false
    selected_polygon := -1, drag_point_index := -1, mouse_pos := (0, 0)
    input_mode := false, input_buffer := [], input_prompt := ""
    pending_polygon := none }

/-- Model of Python `int(s)` on the digit strings this buffer can hold:
a nonempty all-digit string parses to its decimal value, anything else
raises `ValueError` (`none`).  (Python's `int` also accepts signs,
surrounding whitespace and inner underscores; none of those characters can
enter `input_buffer`, which only ever receives digit keys — proved below.) -/
def pyIntDigits (s : List Char) : Option Int :=
  if s ≠ [] ∧ s.all (fun c => c.isDigit) then
    some (s.foldl (fun a c => 10 * a + ((c.toNat : Int) - 48)) 0)
  else none

/-- Model of `cancel_input` (roi_module.py lines 111-116). -/
def cancel_input (m : PolygonROIManager) : PolygonROIManager :=
  { m with input_mode := false, input_buffer := [], input_prompt := ""
           pending_polygon := none }

/-- Model of `handle_key_input` (roi_module.py lines 75-109).  On Enter the
threshold is `int(input_buffer)` when the buffer is nonempty, with 50 as the
default for an empty buffer and as the `ValueError` fallback.  The committed
polygon is `pending_polygon` (always set in reachable input-mode states;
`getD []` stands for Python's `None` append which likewise changes no
count). -/
def handle_key_input (m : PolygonROIManager) (key : Nat) : PolygonROIManager :=
  if !m.input_mode then m
  else if key = 13 then
    let threshold : Int :=
      if m.input_buffer = [] then 50 else (pyIntDigits m.input_buffer).getD 50
    cancel_input
      { m with polygons := m.polygons ++ [m.pending_polygon.getD []]
               roi_max_thresholds := m.roi_max_thresholds ++ [threshold] }
  else if key = 8 then { m with input_buffer := m.input_buffer.dropLast }
  else if key = 27 then cancel_input m
  else if 32 ≤ key ∧ key < 127 then
    if (Char.ofNat key).isDigit then
      { m with input_buffer := m.input_buffer ++ [Char.ofNat key] }
    else m
  else m

/-- Vertex-hit test of `mouse_callback`:
`np.sqrt((x-px)**2 + (y-py)**2) < 10`, i.e. squared distance `< 100`. -/
def hitPoint (x y : Int) (p : Int × Int) : Bool :=
  decide ((x - p.1) ^ 2 + (y - p.2) ^ 2 < 100)

/-- First vertex hit in the nested scan order of `mouse_callback`
(outer loop over polygons, inner loop over points, return on first hit). -/
def findVertexHitFrom (x y : Int) (idx : Nat) : List Poly → Option (Nat × Nat)
  | [] => none
  | poly :: rest =>
    match poly.findIdx? (hitPoint x y) with
    | some j => some (idx, j)
    | none => findVertexHitFrom x y (idx + 1) rest

def findVertexHit (x y : Int) (polys : List Poly) : Option (Nat × Nat) :=
  findVertexHitFrom x y 0 polys

/-- The four mouse events `mouse_callback` reacts to. -/
inductive MouseEvent where
  | lbuttondown
  | rbuttondown
  | mousemove
  | lbuttonup
  deriving Repr, DecidableEq

/-- Model of `mouse_callback` (roi_module.py lines 41-73).  `mouse_pos` is
updated before the edit-mode/input-mode guard, exactly as in the code. -/
def mouse_callback (m0 : PolygonROIManager) (ev : MouseEvent) (x y : Int) :
    PolygonROIManager :=
  let m := { m0 with mouse_pos := (x, y) }
  if ¬m.edit_mode ∨ m.input_mode then m
  else
    match ev with
    | .lbuttondown =>
      if ¬m.drawing then
        match findVertexHit x y m.polygons with
        | some (pi, qi) =>
          { m with selected_polygon := (pi : Int), drag_point_index := (qi : Int) }
        | none => { m with current_polygon := [(x, y)], drawing := true }
      else { m with current_polygon := m.current_polygon ++ [(x, y)] }
    | .rbuttondown =>
      if m.drawing ∧ 3 ≤ m.current_polygon.length then
        { m with pending_polygon := some m.current_polygon
                 current_polygon := [], drawing := false
                 input_mode := true
                 input_prompt := "Enter Threshold" -- prompt text abstracted
                 input_buffer := [] }
      else m
    | .mousemove =>
      if m.selected_polygon ≠ -1 then
        let oldPoly := m.polygons.getD m.selected_polygon.toNat []
        let newPoly := oldPoly.set m.drag_point_index.toNat (x, y)
        { m with polygons := m.polygons.set m.selected_polygon.toNat newPoly }
      else m
    | .lbuttonup => { m with selected_polygon := -1, drag_point_index := -1 }

/-- Model of `save_config` (roi_module.py lines 236-242): the JSON document
content that gets written — the polygon list and the threshold list. -/
def save_config (m : PolygonROIManager) : Option (List Poly × List Int) :=
  some (m.polygons, m.roi_max_thresholds)

/-- Model of `load_config` (roi_module.py lines 244-257): a missing or
unreadable file (`none`) leaves the registry untouched; otherwise both lists
are replaced, and a length mismatch resets every threshold to 50 with a
warning instead of raising. -/
def load_config (m : PolygonROIManager)
    (file : Option (List Poly × List Int)) : PolygonROIManager :=
  match file with
  | none => m
  | some (ps, ts) =>
    { m with polygons := ps
             roi_max_thresholds :=
               if ts.length ≠ ps.length then List.replicate ps.length 50 else ts }

/-- Registry operations as driven by `detects.py`'s `frame_handler` plus the
startup `load_config`.  A key press goes to `handle_key_input` while input
mode is active, otherwise to the `e`/`s`/`c` dispatch (`q` raises
`KeyboardInterrupt` and ends the loop, mutating nothing). -/
inductive RegistryOp where
  | mouse (ev : MouseEvent) (x y : Int)
  | key (k : Nat)
  | loadOp (file : Option (List Poly × List Int))
  deriving Repr, DecidableEq

/-- Key dispatch of `frame_handler` (detects.py lines 59-79): `e` toggles
edit mode, `s` (in edit mode) saves and leaves edit mode, `c` (in edit mode)
clears polygons, thresholds and the in-progress polygon. -/
def frame_handler_key (m : PolygonROIManager) (k : Nat) : PolygonROIManager :=
  if m.input_mode then handle_key_input m k
  else if k = 101 then { m with edit_mode := !m.edit_mode }
  else if k = 115 ∧ m.edit_mode then { m with edit_mode := false }
  else if k = 99 ∧ m.edit_mode then
    { m with polygons := [], roi_max_thresholds := [], current_polygon := [] }
  else m

/-- One registry operation. -/
def registryStep (m : PolygonROIManager) : RegistryOp → PolygonROIManager
  | .mouse ev x y => mouse_callback m ev x y
  | .key k => frame_handler_key m k
  | .loadOp file => load_config m file

/-- The registry after a sequence of operations. -/
def registryRun (m : PolygonROIManager) : List RegistryOp → PolygonROIManager
  | [] => m
  | op :: ops => registryRun (registryStep m op) ops

/-- C6: for every registry with `len(polygons) == len(roi_max_thresholds)`,
saving the configuration and loading the saved content back (into any
registry) reproduces the same ordered polygon list — each point's
coordinates equal — and the same ordered threshold list. -/
theorem save_load_roundtrip (m mt : PolygonROIManager)
    (h : m.polygons.length = m.roi_max_thresholds.length) :
    (load_config mt (save_config m)).polygons = m.polygons ∧
    (load_config mt (save_config m)).roi_max_thresholds = m.roi_max_thresholds := by
  refine ⟨rfl, ?_⟩
  show (if m.roi_max_thresholds.length ≠ m.polygons.length then
      List.replicate m.polygons.length 50 else m.roi_max_thresholds)
    = m.roi_max_thresholds
  rw [if_neg]
  omega

/-- A one-ROI registry used as a concrete test state. -/
def demoRegistry : PolygonROIManager :=
  { initManager with
      polygons := [[(0, 0), (4, 0), (2, 3)]]
      roi_max_thresholds := [7] }

/-- Witness for C6 at a one-ROI registry. -/
theorem save_load_roundtrip_witness :
    demoRegistry.polygons.length = demoRegistry.roi_max_thresholds.length ∧
    (load_config initManager (save_config demoRegistry)).polygons
      = [[(0, 0), (4, 0), (2, 3)]] ∧
    (load_config initManager (save_config demoRegistry)).roi_max_thresholds
      = [7] :=
  ⟨by decide,
    (save_load_roundtrip demoRegistry initManager (by decide)).1,
    (save_load_roundtrip demoRegistry initManager (by decide)).2⟩

/-- Every single registry operation preserves
`len(roi_max_thresholds) == len(polygons)`. -/
theorem registryStep_preserves_len (m : PolygonROIManager)
    (h : m.roi_max_thresholds.length = m.polygons.length) (op : RegistryOp) :
    (registryStep m op).roi_max_thresholds.length =
      (registryStep m op).polygons.length := by
  cases op with
  | mouse ev x y =>
    cases ev <;>
      simp only [registryStep, mouse_callback] <;>
      split_ifs <;>
      first
        | simpa using h
        | (rename_i hcase
           cases hfind : findVertexHit x y m.polygons with
           | none => simpa [hfind] using h
           | some pq => cases pq; simpa [hfind] using h)
  | key k =>
    simp only [registryStep, frame_handler_key]
    split_ifs with h1 h2 h3 h4
    · simp only [handle_key_input]
      split_ifs <;> simp [cancel_input, h]
    · simpa using h
    · simpa using h
    · simp
    · simpa using h
  | loadOp file =>
    cases file with
    | none => simpa [registryStep, load_config] using h
    | some pt =>
      obtain ⟨ps, ts⟩ := pt
      simp only [registryStep, load_config]
      split_ifs with hlen
      · simp
      · simpa using hlen

/-- The length invariant is preserved along any operation sequence. -/
theorem registryRun_preserves_len (ops : List RegistryOp)
    (m : PolygonROIManager)
    (h : m.roi_max_thresholds.length = m.polygons.length) :
    (registryRun m ops).roi_max_thresholds.length =
      (registryRun m ops).polygons.length := by
  induction ops generalizing m with
  | nil => exact h
  | cons op ops ih =>
    exact ih (registryStep m op) (registryStep_preserves_len m h op)

/-- C4: after every sequence of registry operations (create/confirm, cancel,
drag, clear, save, load) starting from the constructor state,
`len(roi_max_thresholds) == len(polygons)` holds; and a load whose persisted
polygon and threshold lists differ in length resets every threshold to the
default 50 instead of raising. -/
theorem registry_length_invariant :
    (∀ ops : List RegistryOp,
        (registryRun initManager ops).roi_max_thresholds.length =
          (registryRun initManager ops).polygons.length) ∧
    (∀ (m : PolygonROIManager) (ps : List Poly) (ts : List Int),
        ts.length ≠ ps.length →
          (load_config m (some (ps, ts))).roi_max_thresholds =
            List.replicate ps.length 50) := by
  constructor
  · intro ops
    exact registryRun_preserves_len ops initManager rfl
  · intro m ps ts hlen
    simp [load_config, hlen]

/-- Witness for C4: a run ending in a mismatched load keeps the invariant,
and that load resets the thresholds to `[50]`. -/
theorem registry_length_invariant_witness :
    ((registryRun initManager
        [RegistryOp.loadOp (some ([[(0, 0), (3, 0), (0, 3)]], [7, 8]))]
      ).roi_max_thresholds.length =
      (registryRun initManager
        [RegistryOp.loadOp (some ([[(0, 0), (3, 0), (0, 3)]], [7, 8]))]
      ).polygons.length) ∧
    (([7, 8] : List Int).length ≠ ([[(0, 0), (3, 0), (0, 3)]] : List Poly).length) ∧
    (load_config initManager
        (some ([[(0, 0), (3, 0), (0, 3)]], [7, 8]))).roi_max_thresholds =
      List.replicate 1 50 :=
  ⟨registry_length_invariant.1
      [RegistryOp.loadOp (some ([[(0, 0), (3, 0), (0, 3)]], [7, 8]))],
    by decide,
    registry_length_invariant.2 initManager [[(0, 0), (3, 0), (0, 3)]] [7, 8]
      (by decide)⟩

/-- C7: while numeric-input mode is active — a digit key appends its
character to the buffer; Backspace (8) removes the last buffer character;
Enter (13) appends the pending polygon and the buffer parsed as an integer
threshold (50 for an empty or unparsable buffer) to the registry's
collections and exits input mode; Escape (27) exits input mode leaving
polygons and thresholds unmodified. -/
theorem handle_key_input_cases (m : PolygonROIManager)
    (hm : m.input_mode = true) :
    (∀ k : Nat, 48 ≤ k → k ≤ 57 →
        handle_key_input m k =
          { m with input_buffer := m.input_buffer ++ [Char.ofNat k] }) ∧
    handle_key_input m 8
      = { m with input_buffer := m.input_buffer.dropLast } ∧
    ((handle_key_input m 13).polygons
        = m.polygons ++ [m.pending_polygon.getD []] ∧
      (handle_key_input m 13).roi_max_thresholds = m.roi_max_thresholds ++
        [if m.input_buffer = [] then 50
          else (pyIntDigits m.input_buffer).getD 50] ∧
      (handle_key_input m 13).input_mode = false) ∧
    ((handle_key_input m 27).input_mode = false ∧
      (handle_key_input m 27).polygons = m.polygons ∧
      (handle_key_input m 27).roi_max_thresholds = m.roi_max_thresholds) := by
  refine ⟨?_, ?_, ?_, ?_⟩
  · intro k hk1 hk2
    interval_cases k <;> simp [handle_key_input, hm]
  · simp [handle_key_input, hm]
  · simp [handle_key_input, hm, cancel_input]
  · simp [handle_key_input, hm, cancel_input]

/-- Witness for C7: a concrete input-mode state with buffer `"4"` and a
pending triangle, exercised on the digit key `2`, Backspace, Enter and
Escape. -/
theorem handle_key_input_cases_witness :
    ({ initManager with
        input_mode := true
        input_buffer := ['4']
        pending_polygon := some [(0, 0), (3, 0), (0, 3)] } : PolygonROIManager
      ).input_mode = true ∧
    48 ≤ 50 ∧ 50 ≤ 57 ∧
    handle_key_input
      { initManager with
          input_mode := true
          input_buffer := ['4']
          pending_polygon := some [(0, 0), (3, 0), (0, 3)] } 50 =
      { initManager with
          input_mode := true
          input_buffer := ['4', '2']
          pending_polygon := some [(0, 0), (3, 0), (0, 3)] } ∧
    (handle_key_input
      { initManager with
          input_mode := true
          input_buffer := ['4']
          pending_polygon := some [(0, 0), (3, 0), (0, 3)] } 13).roi_max_thresholds
      = [4] := by
  refine ⟨rfl, by decide, by decide, ?_, ?_⟩
  · have h := (handle_key_input_cases
      { initManager with
          input_mode := true
          input_buffer := ['4']
          pending_polygon := some [(0, 0), (3, 0), (0, 3)] } rfl).1 50
      (by decide) (by decide)
    rw [h]
    decide
  · have h := (handle_key_input_cases
      { initManager with
          input_mode := true
          input_buffer := ['4']
          pending_polygon := some [(0, 0), (3, 0), (0, 3)] } rfl).2.2.1.2.1
    rw [h]
    decide

/-- A nonempty all-digit buffer parses successfully (no `ValueError`). -/
theorem pyIntDigits_isSome (s : List Char) (h1 : s ≠ [])
    (h2 : s.all (fun c => c.isDigit) = true) :
    (pyIntDigits s).isSome = true := by
  simp [pyIntDigits, h1, h2]

/-- Through `mouse_callback` the buffer is either untouched or reset to
empty (by entering input mode). -/
theorem mouse_callback_buffer (m : PolygonROIManager) (ev : MouseEvent)
    (x y : Int) :
    (mouse_callback m ev x y).input_buffer = m.input_buffer ∨
    (mouse_callback m ev x y).input_buffer = [] := by
  dsimp only [mouse_callback]
  repeat first
    | (left; rfl)
    | (right; rfl)
    | split

/-- Through `handle_key_input` an all-digit buffer stays all-digit: Enter
and Escape empty it, Backspace drops its last character, digit keys append
a digit, everything else leaves it alone. -/
theorem handle_key_input_preserves_digits (m : PolygonROIManager) (k : Nat)
    (h : m.input_buffer.all (fun c => c.isDigit) = true) :
    (handle_key_input m k).input_buffer.all (fun c => c.isDigit) = true := by
  unfold handle_key_input
  split_ifs with h0 h13 hbuf h8 h27 hrange hdig
  · exact h
  · rfl
  · rfl
  · show m.input_buffer.dropLast.all (fun c => c.isDigit) = true
    simp only [List.all_eq_true] at h ⊢
    exact fun c hc => h c ((List.dropLast_sublist _).subset hc)
  · rfl
  · show (m.input_buffer ++ [Char.ofNat k]).all (fun c => c.isDigit) = true
    simp [List.all_append, h, hdig]
  · exact h
  · exact h

/-- Through the `frame_handler` key dispatch the property is preserved. -/
theorem frame_handler_key_preserves_digits (m : PolygonROIManager) (k : Nat)
    (h : m.input_buffer.all (fun c => c.isDigit) = true) :
    (frame_handler_key m k).input_buffer.all (fun c => c.isDigit) = true := by
  unfold frame_handler_key
  split_ifs with h1 h2 h3 h4
  · exact handle_key_input_preserves_digits m k h
  all_goals exact h

/-- Every registry operation keeps `input_buffer` all-digits. -/
theorem registryStep_preserves_digits (m : PolygonROIManager)
    (h : m.input_buffer.all (fun c => c.isDigit) = true) (op : RegistryOp) :
    (registryStep m op).input_buffer.all (fun c => c.isDigit) = true := by
  cases op with
  | mouse ev x y =>
    rcases mouse_callback_buffer m ev x y with hb | hb
    · show (mouse_callback m ev x y).input_buffer.all (fun c => c.isDigit) = true
      rw [hb]; exact h
    · show (mouse_callback m ev x y).input_buffer.all (fun c => c.isDigit) = true
      rw [hb]; rfl
  | key k => exact frame_handler_key_preserves_digits m k h
  | loadOp file =>
    cases file with
    | none => exact h
    | some pt =>
      obtain ⟨ps, ts⟩ := pt
      exact h

/-- The all-digits property holds along any operation sequence. -/
theorem registryRun_preserves_digits (ops : List RegistryOp)
    (m : PolygonROIManager)
    (h : m.input_buffer.all (fun c => c.isDigit) = true) :
    (registryRun m ops).input_buffer.all (fun c => c.isDigit) = true := by
  induction ops generalizing m with
  | nil => exact h
  | cons op ops ih =>
    exact ih (registryStep m op) (registryStep_preserves_digits m h op)

/-- C9: from the constructor state, after any sequence of registry
operations the input buffer consists solely of ASCII digit characters;
hence on Enter with a nonempty buffer `int(input_buffer)` cannot raise, and
the `ValueError` fallback assigning the default threshold is unreachable. -/
theorem input_buffer_always_digits :
    (∀ ops : List RegistryOp,
        (registryRun initManager ops).input_buffer.all (fun c => c.isDigit)
          = true) ∧
    (∀ ops : List RegistryOp,
        (registryRun initManager ops).input_buffer ≠ [] →
          (pyIntDigits (registryRun initManager ops).input_buffer).isSome
            = true) := by
  have hall : ∀ ops : List RegistryOp,
      (registryRun initManager ops).input_buffer.all (fun c => c.isDigit)
        = true :=
    fun ops => registryRun_preserves_digits ops initManager rfl
  exact ⟨hall, fun ops hne => pyIntDigits_isSome _ hne (hall ops)⟩

/-- A concrete interactive session: enable edit mode, click three vertices,
right-click to close the polygon (entering input mode), press the digit 5. -/
def demoSession : List RegistryOp :=
  [RegistryOp.key 101,
   RegistryOp.mouse MouseEvent.lbuttondown 0 0,
   RegistryOp.mouse MouseEvent.lbuttondown 20 0,
   RegistryOp.mouse MouseEvent.lbuttondown 20 20,
   RegistryOp.mouse MouseEvent.rbuttondown 20 20,
   RegistryOp.key 53]

/-- Witness for C9: after the concrete session the buffer is the nonempty
digit string `"5"`, and it parses. -/
theorem input_buffer_always_digits_witness :
    (registryRun initManager demoSession).input_buffer ≠ [] ∧
    (pyIntDigits (registryRun initManager demoSession).input_buffer).isSome
      = true :=
  ⟨by decide, input_buffer_always_digits.2 demoSession (by decide)⟩

/-! ## Exception structure of `detect` (`detection_module.py` lines 242-380)

`detect` initialises device/model/source inside an outer `try`; the
per-frame work sits in an inner `try` (lines 280-371) whose
`except Exception` handler logs and falls through to the next loop
iteration (lines 371-374).  The outer handler logs and re-raises
(lines 376-380), so an initialization failure propagates to the caller
(`detects.py` catches it and applies the restart policy).  Exceptions are
modelled with `Except`; a frame body either produces a total count or
raises. -/

/-- Outcome of one frame's processing body (the inner `try` block). -/
inductive FrameOutcome where
  | ok (total : Nat)
  | exn (msg : String)
  deriving Repr, DecidableEq

/-- A log line of the loop: the per-frame info line, or the
"Error processing frame" line written by the inner `except` handler. -/
inductive LogEntry where
  | info (total : Nat)
  | frameError (msg : String)
  deriving Repr, DecidableEq

/-- The detection loop body over a run of frames: an exception from a frame
is caught, logged, and the loop continues with the next frame — one log
entry per frame, never an escaping exception. -/
def processFrames : List FrameOutcome → List LogEntry
  | [] => []
  | .ok n :: rest => .info n :: processFrames rest
  | .exn e :: rest => .frameError e :: processFrames rest

/-- Model of `detect`'s exception structure: a failing initialization
(model/device/source, lines 244-258) aborts before the loop and re-raises;
a successful initialization runs the loop over all frames and returns its
log. -/
def detect (init : Except String Unit) (frames : List FrameOutcome) :
    Except String (List LogEntry) :=
  match init with
  | .error e => .error e
  | .ok _ => .ok (processFrames frames)

/-- The loop logs exactly one entry per frame, and a raising frame yields
the caught-and-logged error entry. -/
theorem processFrames_length (frames : List FrameOutcome) :
    (processFrames frames).length = frames.length := by
  induction frames with
  | nil => rfl
  | cons f rest ih => cases f <;> simp [processFrames, ih]

/-- C5: an exception raised while processing a single frame is caught and
logged and the loop proceeds to the next frame — the run completes with one
log entry per frame, with raising frames logged as frame errors — whereas a
failure to initialize the model or source propagates to the caller as the
same raised exception. -/
theorem detect_exception_structure (init : Except String Unit)
    (frames : List FrameOutcome) :
    (∀ e, init = .error e → detect init frames = .error e) ∧
    (init = .ok () →
      detect init frames = .ok (processFrames frames) ∧
      (processFrames frames).length = frames.length ∧
      ∀ e rest, processFrames (.exn e :: rest)
        = .frameError e :: processFrames rest) := by
  constructor
  · intro e he; rw [he]; rfl
  · intro hok
    rw [hok]
    exact ⟨rfl, processFrames_length frames, fun e rest => rfl⟩

/-- Witness for C5: a run whose middle frame raises still logs all three
frames; a failing initialization propagates its error. -/
theorem detect_exception_structure_witness :
    ((Except.error "no weights" : Except String Unit) = .error "no weights" ∧
      detect (.error "no weights") [FrameOutcome.ok 2] = .error "no weights") ∧
    ((Except.ok () : Except String Unit) = .ok () ∧
      detect (.ok ()) [FrameOutcome.ok 2, FrameOutcome.exn "boom", FrameOutcome.ok 3]
        = .ok [LogEntry.info 2, LogEntry.frameError "boom", LogEntry.info 3] ∧
      (processFrames
        [FrameOutcome.ok 2, FrameOutcome.exn "boom", FrameOutcome.ok 3]).length
        = 3) :=
  ⟨⟨rfl, (detect_exception_structure (.error "no weights") [FrameOutcome.ok 2]).1
      "no weights" rfl⟩,
    rfl,
    ((detect_exception_structure (.ok ())
      [FrameOutcome.ok 2, FrameOutcome.exn "boom", FrameOutcome.ok 3]).2 rfl).1,
    ((detect_exception_structure (.ok ())
      [FrameOutcome.ok 2, FrameOutcome.exn "boom", FrameOutcome.ok 3]).2 rfl).2.1⟩

/-! ## `redis_utils.py` best-effort helpers

Each helper wraps its whole body in `try ... except (RedisError, Exception):
return False`.  The body first calls `get_redis_client()`; a `None` client
returns `False` normally.  The fallible Redis calls are modelled by an
environment fixing each call's outcome (`Except.error` = the call raises).
An overall `Except.ok b` means the helper returned the boolean `b` without
propagating an exception; `Except.error` would model an escaping exception.
The alert/entry dictionaries and `json.dumps` of them cannot raise and do
not influence control flow, so they are not part of the model. -/

/-- Outcomes of the Redis calls the three helpers make. -/
structure RedisEnv where
  /-- result of `get_redis_client()`: `none` models a failed connection. -/
  client : Option Unit
  /-- outcome of `client.incr("alert_counter")`. -/
  incrRes : Except String Int
  /-- outcome of `client.rpush("alerts_queue", ...)`. -/
  rpushRes : Except String Unit
  /-- outcome of `pipeline.execute()` (lpush + ltrim + expire). -/
  executeRes : Except String Unit
  /-- outcome of `client.set(key, ...)`. -/
  setRes : Except String Unit

/-- The `try` body of `push_alert` (redis_utils.py lines 55-79). -/
def pushAlertBody (env : RedisEnv) : Except String Bool :=
  match env.client with
  | none => .ok false
  | some _ => do
    let _ ← env.incrRes
    let _ ← env.rpushRes
    return true

/-- Model of `push_alert`: the `except` clause (lines 80-82) turns any
raised exception into a logged `return False`. -/
def push_alert (env : RedisEnv) : Except String Bool :=
  match pushAlertBody env with
  | .ok b => .ok b
  | .error _ => .ok false

/-- The `try` body of `update_crowd_count` (lines 86-101); queueing pipeline
commands cannot raise, `execute()` performs them. -/
def updateCrowdCountBody (env : RedisEnv) : Except String Bool :=
  match env.client with
  | none => .ok false
  | some _ => do
    let _ ← env.executeRes
    return true

/-- Model of `update_crowd_count` (except clause at lines 102-104). -/
def update_crowd_count (env : RedisEnv) : Except String Bool :=
  match updateCrowdCountBody env with
  | .ok b => .ok b
  | .error _ => .ok false

/-- The `try` body of `insert_camera_data` (lines 111-124). -/
def insertCameraDataBody (env : RedisEnv) : Except String Bool :=
  match env.client with
  | none => .ok false
  | some _ => do
    let _ ← env.setRes
    return true

/-- Model of `insert_camera_data` (except clause at lines 125-127). -/
def insert_camera_data (env : RedisEnv) : Except String Bool :=
  match insertCameraDataBody env with
  | .ok b => .ok b
  | .error _ => .ok false

/-- Helper: `push_alert` never raises; `true` iff client and both calls ok. -/
theorem push_alert_spec (env : RedisEnv) :
    (∃ b, push_alert env = .ok b) ∧
    (push_alert env = .ok true ↔
      env.client.isSome = true ∧ (∃ n, env.incrRes = .ok n) ∧
        env.rpushRes = .ok ()) := by
  obtain ⟨client, incrRes, rpushRes, executeRes, setRes⟩ := env
  cases client <;> cases incrRes <;> cases rpushRes <;>
    simp [push_alert, pushAlertBody, Except.bind, bind, pure, Except.pure]

/-- Helper: `update_crowd_count` never raises; `true` iff client and
`execute` ok. -/
theorem update_crowd_count_spec (env : RedisEnv) :
    (∃ b, update_crowd_count env = .ok b) ∧
    (update_crowd_count env = .ok true ↔
      env.client.isSome = true ∧ env.executeRes = .ok ()) := by
  obtain ⟨client, incrRes, rpushRes, executeRes, setRes⟩ := env
  cases client <;> cases executeRes <;>
    simp [update_crowd_count, updateCrowdCountBody, Except.bind, bind, pure,
      Except.pure]

/-- Helper: `insert_camera_data` never raises; `true` iff client and `set`
ok. -/
theorem insert_camera_data_spec (env : RedisEnv) :
    (∃ b, insert_camera_data env = .ok b) ∧
    (insert_camera_data env = .ok true ↔
      env.client.isSome = true ∧ env.setRes = .ok ()) := by
  obtain ⟨client, incrRes, rpushRes, executeRes, setRes⟩ := env
  cases client <;> cases setRes <;>
    simp [insert_camera_data, insertCameraDataBody, Except.bind, bind, pure,
      Except.pure]

/-- C10: for every environment, each of `push_alert`, `update_crowd_count`
and `insert_camera_data` returns a boolean and never propagates an
exception, and it returns `true` exactly when the client was obtained and
every Redis call of its body succeeded — `false` (after logging) in every
failure case. -/
theorem redis_helpers_best_effort (env : RedisEnv) :
    (∃ b, push_alert env = .ok b) ∧
    (∃ b, update_crowd_count env = .ok b) ∧
    (∃ b, insert_camera_data env = .ok b) ∧
    (push_alert env = .ok true ↔
      env.client.isSome = true ∧ (∃ n, env.incrRes = .ok n) ∧
        env.rpushRes = .ok ()) ∧
    (update_crowd_count env = .ok true ↔
      env.client.isSome = true ∧ env.executeRes = .ok ()) ∧
    (insert_camera_data env = .ok true ↔
      env.client.isSome = true ∧ env.setRes = .ok ()) :=
  ⟨(push_alert_spec env).1, (update_crowd_count_spec env).1,
    (insert_camera_data_spec env).1, (push_alert_spec env).2,
    (update_crowd_count_spec env).2, (insert_camera_data_spec env).2⟩

/-! ## `point_in_polygon` (`roi_module.py` lines 203-204)

The method returns `cv2.pointPolygonTest(int32(polygon), int(point), False)
>= 0`.  OpenCV's `pointPolygonTest` with `measureDist=False` on an integer
contour walks the cyclic edges `(v0, v) = (p[i-1 mod n], p[i])` with exact
integer arithmetic: an edge is skipped when both endpoints are on one side
of the query row or both strictly left of the query column — unless the
query point lies on that (horizontal or endpoint) part of the edge, which
returns 0; a non-skipped edge with zero cross product returns 0; otherwise
the edge contributes one crossing when the orientation-normalised cross
product is positive.  The result is `+1` for an odd crossing count, `-1`
for even, `0` on the boundary.  Early returns of 0 are equivalent to "some
edge is a boundary edge", and the crossing count is a `countP` over the
edge list, so the embedding expresses the result through `List.any` /
`List.countP` over the cyclic edge list. -/

/-- Skip guard of the OpenCV edge loop: both endpoints at or below the
query row, both strictly above it, or both strictly left of the query
column. -/
def edgeSkip (p v0 v : Int × Int) : Bool :=
  decide ((v0.2 ≤ p.2 ∧ v.2 ≤ p.2) ∨ (v0.2 > p.2 ∧ v.2 > p.2) ∨
    (v0.1 < p.1 ∧ v.1 < p.1))

/-- Boundary detection inside the skip branch: the query point coincides
with the edge head or lies on a horizontal edge through both endpoints. -/
def edgeSkipBoundary (p v0 v : Int × Int) : Bool :=
  decide (p.2 = v.2 ∧ (p.1 = v.1 ∨ (p.2 = v0.2 ∧
    ((v0.1 ≤ p.1 ∧ p.1 ≤ v.1) ∨ (v.1 ≤ p.1 ∧ p.1 ≤ v0.1)))))

/-- The cross product `(py - v0y)*(vx - v0x) - (px - v0x)*(vy - v0y)`. -/
def edgeCross (p v0 v : Int × Int) : Int :=
  (p.2 - v0.2) * (v.1 - v0.1) - (p.1 - v0.1) * (v.2 - v0.2)

/-- Whether this edge makes `pointPolygonTest` return 0 (point on edge). -/
def edgeBoundary (p v0 v : Int × Int) : Bool :=
  if edgeSkip p v0 v then edgeSkipBoundary p v0 v
  else decide (edgeCross p v0 v = 0)

/-- Whether this edge contributes a ray crossing to the counter. -/
def edgeCrosses (p v0 v : Int × Int) : Bool :=
  if edgeSkip p v0 v then false
  else
    let d := edgeCross p v0 v
    if d = 0 then false
    else decide (0 < if v.2 < v0.2 then -d else d)

/-- The cyclic edge list of a polygon: `(p0,p1), (p1,p2), …, (pn-1,p0)` —
the same edge multiset OpenCV walks as `(p[i-1], p[i])`. -/
def polygonEdges (poly : List (Int × Int)) :
    List ((Int × Int) × (Int × Int)) :=
  poly.zip (poly.rotate 1)

/-- Result of `cv2.pointPolygonTest(poly, p, False)` on integer data:
0 on the boundary, +1 inside (odd crossings), -1 outside. -/
def pointPolygonTestSign (poly : List (Int × Int)) (p : Int × Int) : Int :=
  if (polygonEdges poly).any (fun e => edgeBoundary p e.1 e.2) then 0
  else if ((polygonEdges poly).countP (fun e => edgeCrosses p e.1 e.2)) % 2 = 0
    then -1 else 1

/-- Model of `PolygonROIManager.point_in_polygon`:
`pointPolygonTest(...) >= 0` (inside or on the boundary). -/
def point_in_polygon (point : Int × Int) (polygon : List (Int × Int)) : Bool :=
  decide (0 ≤ pointPolygonTestSign polygon point)

/-- Rotating two same-length lists in step commutes with zipping, one
step. -/
theorem zip_rotate_one {α β : Type} (a : List α) (b : List β)
    (h : a.length = b.length) :
    (a.zip b).rotate 1 = (a.rotate 1).zip (b.rotate 1) := by
  cases a with
  | nil =>
    cases b with
    | nil => rfl
    | cons y ys => simp at h
  | cons x xs =>
    cases b with
    | nil => simp at h
    | cons y ys =>
      have hlen : xs.length = ys.length := by simpa using h
      show ((x, y) :: xs.zip ys).rotate 1 = ((x :: xs).rotate 1).zip ((y :: ys).rotate 1)
      rw [List.rotate_cons_succ, List.rotate_zero,
        List.rotate_cons_succ, List.rotate_zero,
        List.rotate_cons_succ, List.rotate_zero,
        List.zip_append hlen]
      rfl

/-- Rotating two same-length lists in step commutes with zipping. -/
theorem zip_rotate {α β : Type} (n : Nat) (a : List α) (b : List β)
    (h : a.length = b.length) :
    (a.zip b).rotate n = (a.rotate n).zip (b.rotate n) := by
  induction n generalizing a b with
  | zero => simp
  | succ n ih =>
    have h1 : (a.zip b).rotate (n + 1) = (((a.zip b)).rotate 1).rotate n := by
      rw [List.rotate_rotate, Nat.add_comm]
    rw [h1, zip_rotate_one a b h,
      ih (a.rotate 1) (b.rotate 1) (by simp [h]),
      List.rotate_rotate, List.rotate_rotate, Nat.add_comm]

/-- The edge list of a rotated polygon is the rotated edge list. -/
theorem polygonEdges_rotate (poly : List (Int × Int)) (k : Nat) :
    polygonEdges (poly.rotate k) = (polygonEdges poly).rotate k := by
  unfold polygonEdges
  rw [zip_rotate k poly (poly.rotate 1) (by simp), List.rotate_rotate,
    List.rotate_rotate, Nat.add_comm]

/-- `List.any` is invariant under permutation. -/
theorem any_eq_of_perm {α : Type} {l₁ l₂ : List α} (h : l₁.Perm l₂)
    (p : α → Bool) : l₁.any p = l₂.any p := by
  cases hb : l₂.any p
  · simp only [List.any_eq_false] at hb ⊢
    exact fun x hx => hb x (h.mem_iff.mp hx)
  · simp only [List.any_eq_true] at hb ⊢
    obtain ⟨x, hx, hpx⟩ := hb
    exact ⟨x, h.mem_iff.mpr hx, hpx⟩

/-- The boundary/crossing aggregation only sees the edge multiset, so the
sign is invariant under rotation of the vertex list. -/
theorem pointPolygonTestSign_rotate (poly : List (Int × Int)) (k : Nat)
    (p : Int × Int) :
    pointPolygonTestSign (poly.rotate k) p = pointPolygonTestSign poly p := by
  have hperm : (polygonEdges (poly.rotate k)).Perm (polygonEdges poly) := by
    rw [polygonEdges_rotate]
    exact List.rotate_perm _ _
  unfold pointPolygonTestSign
  rw [any_eq_of_perm hperm, hperm.countP_eq]

/-- C8: for every polygon with at least 3 points, every rotation of its
vertex list and every query point, `point_in_polygon` returns the same
containment result on the rotated list as on the original. -/
theorem point_in_polygon_rotation_invariant (poly : List (Int × Int))
    (hlen : 3 ≤ poly.length) (k : Nat) (pt : Int × Int) :
    point_in_polygon pt (poly.rotate k) = point_in_polygon pt poly := by
  unfold point_in_polygon
  rw [pointPolygonTestSign_rotate]

/-- Witness for C8: the unit-10 square rotated by one vertex gives the same
answers for an interior and an exterior point. -/
theorem point_in_polygon_rotation_invariant_witness :
    3 ≤ ([(0, 0), (10, 0), (10, 10), (0, 10)] : List (Int × Int)).length ∧
    point_in_polygon (5, 5)
        (([(0, 0), (10, 0), (10, 10), (0, 10)] : List (Int × Int)).rotate 1)
      = point_in_polygon (5, 5) [(0, 0), (10, 0), (10, 10), (0, 10)] ∧
    point_in_polygon (15, 5)
        (([(0, 0), (10, 0), (10, 10), (0, 10)] : List (Int × Int)).rotate 3)
      = point_in_polygon (15, 5) [(0, 0), (10, 0), (10, 10), (0, 10)] :=
  ⟨by decide,
    point_in_polygon_rotation_invariant _ (by decide) 1 (5, 5),
    point_in_polygon_rotation_invariant _ (by decide) 3 (15, 5)⟩

end YoloCrowd
